import Mathlib

/-!
Verification of the duty-cycle scheduler repository (src/app.py, src/client.py).

The Python source is shallowly embedded:
* times of day are seconds-of-day naturals (Python `datetime.time` values are
  totally ordered; the encoding `h*3600 + m*60 + s` is order-preserving);
* wall-clock timestamps and durations are integers (seconds);
* JSON configuration values are the inductive `JValue`; Python dicts are
  association lists with unique keys, in insertion order;
* `System.shutdown()` diverges (spec section 6), so a scheduler iteration that
  requests shutdown is terminal: the returned action records it and no further
  state transition of that process happens;
* process exits (`exit(n)` / `sys.exit(n)`) are modelled as actions or
  `Except.error` values carrying the exit code.
-/

namespace AitiA

/-! ## Operating-window gate (src/app.py, App.working_time_check, lines 104-114)

The Python code compares `datetime.time` values:

    if (wake_up_time < shut_down_time) and (
        wake_up_time > current_time or current_time >= shut_down_time):
        System.shutdown()
    elif current_time >= shut_down_time and current_time < wake_up_time:
        System.shutdown()

`working_time_check_shutdown` returns `true` exactly when `System.shutdown()`
is called. -/
def working_time_check_shutdown (wake_up_time shut_down_time current_time : ℕ) : Bool :=
  if wake_up_time < shut_down_time ∧
      (current_time < wake_up_time ∨ shut_down_time ≤ current_time) then
    true
  else if shut_down_time ≤ current_time ∧ current_time < wake_up_time then
    true
  else
    false

/-! ## Time-of-day string parsing (datetime.strptime with format "%H:%M:%S")

`datetime.strptime(s, "%H:%M:%S")` accepts exactly: three colon-separated
fields, each one or two decimal digits, with hour <= 23, minute <= 59 and
second <= 59 (seconds 60 and 61 match the `%S` pattern but are rejected by the
`datetime` constructor, so the accepted set is the same), and nothing left
over.  `strptime_HMS` returns the seconds-of-day encoding, or `none` when the
Python call raises `ValueError`. -/

/-- Split a character list on colons (like `"a:b:c".split(":")`). -/
def splitOnColon : List Char → List (List Char)
  | [] => [[]]
  | c :: rest =>
    let r := splitOnColon rest
    if c = ':' then [] :: r
    else
      match r with
      | [] => [[c]]
      | g :: gs => (c :: g) :: gs

/-- Value of a decimal digit character, `none` for a non-digit. -/
def digitVal (c : Char) : Option ℕ :=
  if c.isDigit then some (c.toNat - 48) else none

/-- A one- or two-digit decimal field, as matched by `%H` / `%M` / `%S`. -/
def parse_field : List Char → Option ℕ
  | [c] => digitVal c
  | [c₁, c₂] =>
    match digitVal c₁, digitVal c₂ with
    | some d₁, some d₂ => some (d₁ * 10 + d₂)
    | _, _ => none
  | _ => none

/-- `datetime.strptime(s, "%H:%M:%S").time()` as seconds of day, `none` on
`ValueError`. -/
def strptime_HMS (s : String) : Option ℕ :=
  match splitOnColon s.data with
  | [hs, ms, ss] =>
    match parse_field hs, parse_field ms, parse_field ss with
    | some h, some m, some sec =>
      if h ≤ 23 ∧ m ≤ 59 ∧ sec ≤ 59 then some (h * 3600 + m * 60 + sec) else none
    | _, _, _ => none
  | _ => none

/-! ## JSON configuration values (src/app.py, deep_merge and App.load_config)

Python dicts coming from `json.load` are modelled as association lists with
unique keys in insertion order (`JFields`).  The two types are mutually
inductive so that all functions below are structurally recursive. -/

mutual
inductive JValue where
  | str : String → JValue
  | num : ℤ → JValue
  | jbool : Bool → JValue
  | obj : JFields → JValue
deriving Repr

inductive JFields where
  | nil : JFields
  | cons : String → JValue → JFields → JFields
deriving Repr
end

/-- Build a `JFields` association list from a Lean list literal. -/
def jfields : List (String × JValue) → JFields
  | [] => JFields.nil
  | (k, v) :: rest => JFields.cons k v (jfields rest)

/-- Python `dict.get(k)` / `k in dict` on the association-list model. -/
def jlookup (k : String) : JFields → Option JValue
  | JFields.nil => none
  | JFields.cons k₂ v rest => if k₂ = k then some v else jlookup k rest

/-- Key list of a JSON object, in insertion order. -/
def JFields.keys : JFields → List String
  | JFields.nil => []
  | JFields.cons k _ rest => k :: keys rest

/-! `deep_merge` (src/app.py lines 16-38):

    result = default.copy()
    common_keys = set(default.keys()) & set(update.keys())
    for key in common_keys:
        if all(isinstance(d.get(key), dict) for d in (default, update)):
            result[key] = deep_merge(default[key], update[key])
        else:
            result[key] = update[key]
    return result

`result` starts as a copy of `default` and only keys common to both dicts are
reassigned (in place, so insertion order is `default`'s); for a common key the
merge recurses exactly when both values are dicts, otherwise `update`'s value
wins.  `merge_value dv (jlookup k update)` is the value `result[k]` ends up
with. -/

mutual
def deep_merge : JFields → JFields → JFields
  | JFields.nil, _ => JFields.nil
  | JFields.cons k dv rest, update =>
    JFields.cons k (merge_value dv (jlookup k update)) (deep_merge rest update)

def merge_value : JValue → Option JValue → JValue
  | dv, none => dv
  | JValue.obj dfields, some (JValue.obj ufields) => JValue.obj (deep_merge dfields ufields)
  | _, some uv => uv
end

/-! ## App.load_config (src/app.py lines 49-82) -/

/-- The `default_config["Camera"]` literal of `App.load_config`. -/
def default_camera_config : JFields :=
  jfields [("quality", JValue.num 95), ("width", JValue.num 3840),
           ("height", JValue.num 2160)]

/-- The `default_config["Basic"]` literal of `App.load_config`. -/
def default_basic_config : JFields :=
  jfields [("quality", JValue.str "3K"), ("mode", JValue.str "single-shot"),
           ("period", JValue.num 50), ("manual_camera_settings_on", JValue.jbool false),
           ("wake_up_time", JValue.str "06:59:31"), ("shut_down_time", JValue.str "22:00:00")]

/-- Outcome of `open(path)` followed by `json.load(file)`: the file may be
missing (`FileNotFoundError`), hold invalid JSON (`JSONDecodeError`), or parse
to a JSON value. -/
inductive FileRead where
  | notFound : FileRead
  | badJson : FileRead
  | parsed : JValue → FileRead

/-- `App.load_config`.  Every exception handler calls `exit(1)`, modelled as
`Except.error 1`; on success the function returns
`(camera_config, basic_config)`.  A parsed top-level value that is not a dict
makes `data.get` raise `AttributeError`, and a `"Camera"`/`"Basic"` entry that
is not a dict makes `deep_merge` raise on `update.keys()`; both land in the
generic `except Exception` handler, hence `exit(1)`.  No time-of-day string is
inspected anywhere in this function. -/
def load_config (f : FileRead) : Except ℕ (JFields × JFields) :=
  match f with
  | FileRead.notFound => Except.error 1
  | FileRead.badJson => Except.error 1
  | FileRead.parsed (JValue.obj fields) =>
    match (jlookup "Camera" fields).getD (JValue.obj JFields.nil),
          (jlookup "Basic" fields).getD (JValue.obj JFields.nil) with
    | JValue.obj cam, JValue.obj basic =>
      Except.ok (deep_merge default_camera_config cam, deep_merge default_basic_config basic)
    | _, _ => Except.error 1
  | FileRead.parsed _ => Except.error 1

/-- `App.working_time_check` including the two `datetime.strptime` calls on
the configured strings (src/app.py lines 90-98): `none` models a `ValueError`
(or `TypeError` on a non-string value) escaping from the gate, `some b` the
normal return with `b = true` iff shutdown was initiated.  The wake-up string
is parsed first, then the shut-down string, then the gate logic runs. -/
def working_time_check_eval (basic : JFields) (current_time : ℕ) : Option Bool :=
  match jlookup "wake_up_time" basic with
  | some (JValue.str ws) =>
    match strptime_HMS ws with
    | some w =>
      match jlookup "shut_down_time" basic with
      | some (JValue.str ss) =>
        match strptime_HMS ss with
        | some s => some (working_time_check_shutdown w s current_time)
        | none => none
      | _ => none
    | none => none
  | _ => none

/-! ## Duty-cycle scheduler (src/app.py, App.run_periodically lines 193-236)

The two calibration fields set by `App.__init__` (lines 46-47) form the
mutable state.  Timestamps and durations are integer seconds.  One loop
iteration consumes one `CycleInput`: the measured duration of `self.run()`,
the successive `RTC.get_time()` readings the body may take, and the result of
`self.mqtt.is_config_changed()`.  `System.shutdown()` diverges (spec section
6), so an iteration that requests a shutdown is terminal: its action records
the request and the fields' values at that moment. -/

structure AppState where
  boot_shutdown_time : Option ℤ
  last_shutdown_time : Option ℤ
deriving DecidableEq, Repr

/-- The field values `App.__init__` starts with (src/app.py lines 46-47). -/
def initAppState : AppState :=
  { boot_shutdown_time := none, last_shutdown_time := none }

/-- What a single iteration of `run_periodically` does after computing
`waiting_time`. -/
inductive SchedAction where
  | calibShutdown : SchedAction
  | wakeShutdown : ℤ → SchedAction
  | sleepInPlace : ℤ → SchedAction
  | exitConfigChanged : ℕ → SchedAction
  | warnPeriodTooShort : SchedAction
deriving DecidableEq, Repr

/-- Actions that call `System.shutdown()`, which does not return. -/
def SchedAction.diverges : SchedAction → Bool
  | SchedAction.calibShutdown => true
  | SchedAction.wakeShutdown _ => true
  | _ => false

/-- External inputs consumed by one iteration of the loop body: `elapsed` is
the duration measured by `run_with_time_measure`; `tA`, `tB`, `tC`, `tD` are
the `RTC.get_time()` readings at lines 200, 205, 215 and 222 respectively;
`config_changed` is `self.mqtt.is_config_changed()` at line 229. -/
structure CycleInput where
  elapsed : ℤ
  tA : ℤ
  tB : ℤ
  tC : ℤ
  tD : ℤ
  config_changed : Bool
deriving DecidableEq, Repr

/-- `App.run_with_time_measure` (src/app.py lines 238-245):
`waiting_time = period - elapsed_time; return max(waiting_time, 0)`. -/
def run_with_time_measure (period elapsed : ℤ) : ℤ :=
  max (period - elapsed) 0

/-- One iteration of the `while True` body of `App.run_periodically`
(src/app.py lines 195-236), with `SHUTDOWN_THRESHOLD` as the `threshold`
parameter.  In the `boot_shutdown_time is None` branch the shutdown at line
201 diverges, so the iteration ends there.  In the other branch
`boot_shutdown_time` is not `None`, hence the `is not None` conjunct of line
211 reduces to `True` and the guard is `waiting_time > threshold`. -/
def run_periodically_step (threshold period : ℤ) (st : AppState) (inp : CycleInput) :
    SchedAction × AppState :=
  let waiting_time := run_with_time_measure period inp.elapsed
  match st.boot_shutdown_time with
  | none =>
    (SchedAction.calibShutdown,
     { boot_shutdown_time := none, last_shutdown_time := some inp.tA })
  | some b₀ =>
    let bst : ℤ × AppState :=
      match st.last_shutdown_time with
      | some l =>
        (inp.tB - l,
         { boot_shutdown_time := some (inp.tB - l), last_shutdown_time := none })
      | none => (b₀, st)
    let b := bst.1
    let st₁ := bst.2
    if threshold < waiting_time then
      let shutdown_duration := waiting_time - b
      if 0 < shutdown_duration then
        (SchedAction.wakeShutdown (inp.tC + shutdown_duration),
         { boot_shutdown_time := st₁.boot_shutdown_time,
           last_shutdown_time := some inp.tD })
      else
        (SchedAction.sleepInPlace waiting_time, st₁)
    else if 0 < waiting_time then
      if inp.config_changed then
        (SchedAction.exitConfigChanged 1, st₁)
      else
        (SchedAction.sleepInPlace waiting_time, st₁)
    else
      (SchedAction.warnPeriodTooShort, st₁)

/-- States the scheduler can be in at an iteration boundary of
`run_periodically`, starting from the fields set by `App.__init__`.  A step
extends a run only when its action does not call `System.shutdown()` (which
never returns). -/
inductive Reachable (threshold period : ℤ) : AppState → Prop where
  | init : Reachable threshold period initAppState
  | step (st : AppState) (inp : CycleInput)
      (hr : Reachable threshold period st)
      (hnd : SchedAction.diverges (run_periodically_step threshold period st inp).1 = false) :
      Reachable threshold period (run_periodically_step threshold period st inp).2

/-! ## Connection health monitor (src/client.py, MQTT.connect lines 55-90)

`self.reconnect_counter` starts at 0 (`MQTT.__init__`, line 41).  `on_connect`
resets it to 0 when the return code is 0.  `on_disconnect` returns at once on
a voluntary disconnect (reason code 0); otherwise it matches the counter:
0 reconnects immediately, 1-4 back off and reconnect, 5 calls `exit(2)`
("rebooting"), and any other value matches no case; after the match the
counter is incremented (unreached in the `exit(2)` arm). -/

inductive MqttAction where
  | reconnect_immediate : MqttAction
  | reconnect_backoff : MqttAction
  | reboot : ℕ → MqttAction
  | voluntary : MqttAction
  | unhandled : MqttAction
deriving DecidableEq, Repr

/-- The `on_connect` callback's effect on `reconnect_counter`
(src/client.py lines 56-62). -/
def on_connect (counter rc : ℕ) : ℕ :=
  if rc = 0 then 0 else counter

/-- The `on_disconnect` callback (src/client.py lines 64-81): action taken and
the value of `reconnect_counter` afterwards.  `exit(2)` raises, so the
increment after the match does not run in that arm. -/
def on_disconnect (counter reason_code : ℕ) : MqttAction × ℕ :=
  if reason_code = 0 then
    (MqttAction.voluntary, counter)
  else
    match counter with
    | 0 => (MqttAction.reconnect_immediate, 1)
    | 1 => (MqttAction.reconnect_backoff, 2)
    | 2 => (MqttAction.reconnect_backoff, 3)
    | 3 => (MqttAction.reconnect_backoff, 4)
    | 4 => (MqttAction.reconnect_backoff, 5)
    | 5 => (MqttAction.reboot 2, 5)
    | n + 6 => (MqttAction.unhandled, n + 7)

/-- A connection-lifecycle event delivered by the transport: an `on_connect`
callback with return code `rc`, or an `on_disconnect` callback with a reason
code. -/
inductive MEvent where
  | connect : ℕ → MEvent
  | disconnect : ℕ → MEvent
deriving DecidableEq, Repr

/-- Run the callbacks over a sequence of events from a given counter value,
returning how many reboots were requested and the final counter.  `exit(2)`
terminates the process, so no later event is processed. -/
def mqtt_run : ℕ → List MEvent → ℕ × ℕ
  | c, [] => (0, c)
  | c, MEvent.connect rc :: rest => mqtt_run (on_connect c rc) rest
  | c, MEvent.disconnect r :: rest =>
    match on_disconnect c r with
    | (MqttAction.reboot _, c₂) => (1, c₂)
    | (_, c₂) => mqtt_run c₂ rest

/-- `MQTT.publish` (src/client.py lines 92-107): an exception while publishing
is caught and answered with `exit(1)`; a publish that merely reports
`is_published() == False` only logs an error and returns normally. -/
inductive PublishOutcome where
  | published : PublishOutcome
  | reported_failure : PublishOutcome
  | exception : PublishOutcome
deriving DecidableEq, Repr

/-- Result of `MQTT.publish`: `Except.error n` models `exit(n)`. -/
def mqtt_publish : PublishOutcome → Except ℕ Unit
  | PublishOutcome.published => Except.ok ()
  | PublishOutcome.reported_failure => Except.ok ()
  | PublishOutcome.exception => Except.error 1

/-! ## Helper lemmas -/

/-- `deep_merge` with an empty update dict returns the default dict
unchanged. -/
theorem deep_merge_nil : ∀ d : JFields, deep_merge d JFields.nil = d
  | JFields.nil => rfl
  | JFields.cons k dv rest => by
    simp [deep_merge, jlookup, merge_value, deep_merge_nil rest]

/-- `deep_merge` keeps exactly the default dict's top-level keys, in order. -/
theorem deep_merge_keys : ∀ d u : JFields, (deep_merge d u).keys = d.keys
  | JFields.nil, _ => rfl
  | JFields.cons k dv rest, u => by
    simp [deep_merge, JFields.keys, deep_merge_keys rest u]

/-- Unfolding of a scheduler iteration from a calibrated state (overhead
known, no pending shutdown timestamp). -/
theorem run_periodically_step_calibrated (th p b : ℤ) (inp : CycleInput) :
    run_periodically_step th p ⟨some b, none⟩ inp =
      (if th < run_with_time_measure p inp.elapsed then
        if 0 < run_with_time_measure p inp.elapsed - b then
          (SchedAction.wakeShutdown (inp.tC + (run_with_time_measure p inp.elapsed - b)),
           ⟨some b, some inp.tD⟩)
        else
          (SchedAction.sleepInPlace (run_with_time_measure p inp.elapsed), ⟨some b, none⟩)
      else if 0 < run_with_time_measure p inp.elapsed then
        if inp.config_changed then
          (SchedAction.exitConfigChanged 1, ⟨some b, none⟩)
        else
          (SchedAction.sleepInPlace (run_with_time_measure p inp.elapsed), ⟨some b, none⟩)
      else
        (SchedAction.warnPeriodTooShort, ⟨some b, none⟩)) := rfl

/-- Every state the loop of `run_periodically` can be at an iteration boundary
is the initial one: the first iteration's `System.shutdown()` never returns,
so no later iteration boundary is ever passed. -/
theorem reachable_eq_init {th p : ℤ} {st : AppState} (h : Reachable th p st) :
    st = initAppState := by
  induction h with
  | init => rfl
  | step st inp hr hnd ih =>
    subst ih
    have hact : (run_periodically_step th p initAppState inp).1 =
        SchedAction.calibShutdown := rfl
    rw [hact] at hnd
    simp [SchedAction.diverges] at hnd

/-! ## Claim theorems -/

/-- C1: the operating-window gate initiates shutdown exactly when the device
is inactive: for `w < s`, inactive iff `now < w` or `s ≤ now`; for `s ≤ w`
(wrap case), inactive iff `s ≤ now < w`; and with `w = s` the gate never
initiates shutdown. -/
theorem working_time_check_matches_operating_window (w s now : ℕ) :
    (working_time_check_shutdown w s now = true ↔
      if w < s then now < w ∨ s ≤ now else s ≤ now ∧ now < w) ∧
    working_time_check_shutdown w w now = false := by
  constructor
  · unfold working_time_check_shutdown
    split_ifs <;> simp_all
  · unfold working_time_check_shutdown
    split_ifs <;> simp_all
    omega

/-- C2 counterexample: starting from a successfully connected state
(`reconnect_counter = 0`), five consecutive involuntary disconnects (reason
code 7) request no reboot at all — the fifth disconnect still answers with a
backoff reconnect, and the counter only reaches 5. -/
theorem no_reboot_after_five_disconnects :
    (mqtt_run 0 (List.replicate 5 (MEvent.disconnect 7))).1 = 0 ∧
    mqtt_run 0 (List.replicate 5 (MEvent.disconnect 7)) = (0, 5) ∧
    on_disconnect 4 7 = (MqttAction.reconnect_backoff, 5) := ⟨rfl, rfl, rfl⟩

/-- C2 amended: starting from `reconnect_counter = 0`, a reboot (`exit(2)`) is
requested exactly once after the sixth consecutive involuntary disconnect —
i.e. after five failed reconnect attempts — and never earlier; a successful
connection (`rc = 0`) resets the counter to 0. -/
theorem reboot_exactly_on_sixth_disconnect (r : ℕ) (hr : r ≠ 0) (n : ℕ) :
    (mqtt_run 0 (List.replicate n (MEvent.disconnect r))).1 =
      (if 6 ≤ n then 1 else 0) ∧
    ∀ c : ℕ, on_connect c 0 = 0 := by
  have key : ∀ m c : ℕ, c ≤ 5 →
      (mqtt_run c (List.replicate m (MEvent.disconnect r))).1 =
        if 6 ≤ c + m then 1 else 0 := by
    intro m
    induction m with
    | zero =>
      intro c hc
      simp only [List.replicate_zero, mqtt_run]
      rw [if_neg (by omega)]
    | succ m ih =>
      intro c hc
      rw [List.replicate_succ]
      interval_cases c <;>
        simp only [mqtt_run, on_disconnect, if_neg hr] <;>
        first
          | (rw [ih _ (by omega)]; split_ifs <;> omega)
          | (split_ifs <;> omega)
  refine ⟨?_, fun c => rfl⟩
  have := key n 0 (by omega)
  simpa using this

/-- C2 amended witness: six consecutive involuntary disconnects with reason
code 7 request the reboot exactly once, and a successful connection resets a
counter of 3 to 0. -/
theorem reboot_exactly_on_sixth_disconnect_witness :
    (mqtt_run 0 (List.replicate 6 (MEvent.disconnect 7))).1 =
      (if 6 ≤ 6 then 1 else 0) ∧
    on_connect 3 0 = 0 :=
  ⟨(reboot_exactly_on_sixth_disconnect 7 (by decide) 6).1,
   (reboot_exactly_on_sixth_disconnect 7 (by decide) 6).2 3⟩

/-- C3: at every iteration boundary the loop of `run_periodically` can reach
(from the fields set in `App.__init__`), and after any further iteration,
`boot_shutdown_time` and `last_shutdown_time` are never both non-`None`. -/
theorem calibrator_never_both_set (th p : ℤ) (st : AppState)
    (h : Reachable th p st) :
    ¬(st.boot_shutdown_time.isSome = true ∧ st.last_shutdown_time.isSome = true) ∧
    ∀ inp : CycleInput,
      ¬((run_periodically_step th p st inp).2.boot_shutdown_time.isSome = true ∧
        (run_periodically_step th p st inp).2.last_shutdown_time.isSome = true) := by
  have he := reachable_eq_init h
  subst he
  refine ⟨by simp [initAppState], fun inp => ?_⟩
  have hst : (run_periodically_step th p initAppState inp).2 =
      { boot_shutdown_time := none, last_shutdown_time := some inp.tA } := rfl
  rw [hst]
  simp

/-- C3 witness at a concrete threshold, period, state and input. -/
theorem calibrator_never_both_set_witness :
    ¬(initAppState.boot_shutdown_time.isSome = true ∧
      initAppState.last_shutdown_time.isSome = true) ∧
    ¬((run_periodically_step 100 600 initAppState ⟨5, 11, 12, 13, 14, false⟩).2.boot_shutdown_time.isSome = true ∧
      (run_periodically_step 100 600 initAppState ⟨5, 11, 12, 13, 14, false⟩).2.last_shutdown_time.isSome = true) :=
  ⟨(calibrator_never_both_set 100 600 initAppState Reachable.init).1,
   (calibrator_never_both_set 100 600 initAppState Reachable.init).2 ⟨5, 11, 12, 13, 14, false⟩⟩

/-- C4: from the `None`/`None` fields `App.__init__` sets on every process
start, every state the loop reaches still has `boot_shutdown_time = None`,
every iteration taken from such a state requests the unconditional
calibration shutdown (which does not return), and its resulting state still
has `boot_shutdown_time = None` — the Boot-B branch never runs, so the
calibration never reaches the CALIBRATED state within a process run. -/
theorem calibration_never_completes (th p : ℤ) (st : AppState)
    (h : Reachable th p st) :
    st.boot_shutdown_time = none ∧
    ∀ inp : CycleInput,
      (run_periodically_step th p st inp).1 = SchedAction.calibShutdown ∧
      SchedAction.diverges (run_periodically_step th p st inp).1 = true ∧
      (run_periodically_step th p st inp).2.boot_shutdown_time = none := by
  have he := reachable_eq_init h
  subst he
  exact ⟨rfl, fun inp => ⟨rfl, rfl, rfl⟩⟩

/-- C4 witness at a concrete threshold, period, state and input. -/
theorem calibration_never_completes_witness :
    initAppState.boot_shutdown_time = none ∧
    (run_periodically_step 100 600 initAppState ⟨5, 11, 12, 13, 14, false⟩).1 =
      SchedAction.calibShutdown ∧
    SchedAction.diverges
      (run_periodically_step 100 600 initAppState ⟨5, 11, 12, 13, 14, false⟩).1 = true ∧
    (run_periodically_step 100 600 initAppState ⟨5, 11, 12, 13, 14, false⟩).2.boot_shutdown_time = none :=
  ⟨(calibration_never_completes 100 600 initAppState Reachable.init).1,
   (calibration_never_completes 100 600 initAppState Reachable.init).2 ⟨5, 11, 12, 13, 14, false⟩⟩

/-- C5: from a calibrated state, whenever
`waiting_time - boot_shutdown_overhead ≤ 0` (including negative values from a
large or negative overhead) the scheduler requests no shutdown of either
kind, and — when the threshold made a shutdown eligible at all — it sleeps in
place for the full `waiting_time`; no error is raised. -/
theorem no_shutdown_without_payoff (th p b : ℤ) (inp : CycleInput)
    (h : run_with_time_measure p inp.elapsed - b ≤ 0) :
    (∀ t : ℤ, (run_periodically_step th p ⟨some b, none⟩ inp).1 ≠
      SchedAction.wakeShutdown t) ∧
    (run_periodically_step th p ⟨some b, none⟩ inp).1 ≠ SchedAction.calibShutdown ∧
    (th < run_with_time_measure p inp.elapsed →
      (run_periodically_step th p ⟨some b, none⟩ inp).1 =
        SchedAction.sleepInPlace (run_with_time_measure p inp.elapsed)) := by
  rw [run_periodically_step_calibrated]
  split_ifs <;> simp_all
  omega

/-- C5 witness: scenario C of the spec — `period = 600`, cycle takes 5 s,
threshold 100, overhead 600 exceeds the 595 s budget, so the scheduler sleeps
595 s instead of shutting down. -/
theorem no_shutdown_without_payoff_witness :
    (run_periodically_step 100 600 ⟨some 600, none⟩ ⟨5, 11, 12, 13, 14, false⟩).1 ≠
      SchedAction.wakeShutdown 42 ∧
    (run_periodically_step 100 600 ⟨some 600, none⟩ ⟨5, 11, 12, 13, 14, false⟩).1 ≠
      SchedAction.calibShutdown ∧
    (run_periodically_step 100 600 ⟨some 600, none⟩ ⟨5, 11, 12, 13, 14, false⟩).1 =
      SchedAction.sleepInPlace 595 :=
  ⟨(no_shutdown_without_payoff 100 600 600 ⟨5, 11, 12, 13, 14, false⟩ (by decide)).1 42,
   (no_shutdown_without_payoff 100 600 600 ⟨5, 11, 12, 13, 14, false⟩ (by decide)).2.1,
   (no_shutdown_without_payoff 100 600 600 ⟨5, 11, 12, 13, 14, false⟩ (by decide)).2.2
     (by decide)⟩

/-- C6: from a calibrated state, when `waiting_time` exceeds the threshold and
`shutdown_duration = waiting_time - boot_shutdown_overhead > 0`, the scheduler
schedules a wake at `now() + shutdown_duration`, records the pending shutdown
timestamp, and shuts down. -/
theorem shutdown_scheduled_on_payoff (th p b : ℤ) (inp : CycleInput)
    (hth : th < run_with_time_measure p inp.elapsed)
    (hd : 0 < run_with_time_measure p inp.elapsed - b) :
    run_periodically_step th p ⟨some b, none⟩ inp =
      (SchedAction.wakeShutdown (inp.tC + (run_with_time_measure p inp.elapsed - b)),
       ⟨some b, some inp.tD⟩) := by
  rw [run_periodically_step_calibrated, if_pos hth, if_pos hd]

/-- C6 witness: scenario B of the spec — `period = 600`, cycle takes 5 s,
threshold 100, overhead 50: `waiting_time = 595`, `shutdown_duration = 545`,
wake scheduled 545 s after the clock reading 1000, pending timestamp
recorded. -/
theorem shutdown_scheduled_on_payoff_witness :
    run_periodically_step 100 600 ⟨some 50, none⟩ ⟨5, 11, 12, 1000, 14, false⟩ =
      (SchedAction.wakeShutdown 1545, ⟨some 50, some 14⟩) :=
  shutdown_scheduled_on_payoff 100 600 50 ⟨5, 11, 12, 1000, 14, false⟩
    (by decide) (by decide)

/-- C7 counterexample: the configuration whose `wake_up_time` is the
unparsable string `"banana"` passes `load_config` without any exit, and the
parse error then surfaces inside `working_time_check` during gate
evaluation — load-time validation of time strings does not happen. -/
theorem malformed_time_string_survives_load :
    load_config (FileRead.parsed (JValue.obj (jfields
        [("Basic", JValue.obj (jfields [("wake_up_time", JValue.str "banana")]))]))) =
      Except.ok (default_camera_config,
        jfields [("quality", JValue.str "3K"), ("mode", JValue.str "single-shot"),
                 ("period", JValue.num 50),
                 ("manual_camera_settings_on", JValue.jbool false),
                 ("wake_up_time", JValue.str "banana"),
                 ("shut_down_time", JValue.str "22:00:00")]) ∧
    working_time_check_eval
        (jfields [("quality", JValue.str "3K"), ("mode", JValue.str "single-shot"),
                  ("period", JValue.num 50),
                  ("manual_camera_settings_on", JValue.jbool false),
                  ("wake_up_time", JValue.str "banana"),
                  ("shut_down_time", JValue.str "22:00:00")]) 43200 = none :=
  ⟨rfl, rfl⟩

/-- C7 amended: `load_config` is fatal only for unreadable or non-dict JSON —
it never inspects the time-of-day strings, so any `Basic` section merges
successfully whatever its `wake_up_time`/`shut_down_time` hold; a time string
that does not parse makes `working_time_check` raise during gate evaluation
instead. -/
theorem time_strings_not_validated_at_load (basicFields : JFields) (now : ℕ)
    (basic : JFields) (ws : String)
    (hw : jlookup "wake_up_time" basic = some (JValue.str ws))
    (hp : strptime_HMS ws = none) :
    load_config (FileRead.parsed (JValue.obj
        (jfields [("Basic", JValue.obj basicFields)]))) =
      Except.ok (default_camera_config, deep_merge default_basic_config basicFields) ∧
    working_time_check_eval basic now = none := by
  constructor
  · have h1 : load_config (FileRead.parsed (JValue.obj
        (jfields [("Basic", JValue.obj basicFields)]))) =
        Except.ok (deep_merge default_camera_config JFields.nil,
          deep_merge default_basic_config basicFields) := rfl
    rw [h1, deep_merge_nil]
  · simp [working_time_check_eval, hw, hp]

/-- C7 amended witness: the `"banana"` configuration instantiates the amended
claim. -/
theorem time_strings_not_validated_at_load_witness :
    load_config (FileRead.parsed (JValue.obj (jfields
        [("Basic", JValue.obj (jfields [("wake_up_time", JValue.str "banana")]))]))) =
      Except.ok (default_camera_config,
        deep_merge default_basic_config (jfields [("wake_up_time", JValue.str "banana")])) ∧
    working_time_check_eval
        (jfields [("quality", JValue.str "3K"), ("mode", JValue.str "single-shot"),
                  ("period", JValue.num 50),
                  ("manual_camera_settings_on", JValue.jbool false),
                  ("wake_up_time", JValue.str "banana"),
                  ("shut_down_time", JValue.str "22:00:00")]) 0 = none :=
  time_strings_not_validated_at_load
    (jfields [("wake_up_time", JValue.str "banana")]) 0
    (jfields [("quality", JValue.str "3K"), ("mode", JValue.str "single-shot"),
              ("period", JValue.num 50),
              ("manual_camera_settings_on", JValue.jbool false),
              ("wake_up_time", JValue.str "banana"),
              ("shut_down_time", JValue.str "22:00:00")]) "banana" rfl rfl

/-- C8 counterexample: the config-change path exits with `sys.exit(1)` while
the publish-failure path in `MQTT.publish` also exits with code 1 — the two
exit codes coincide, so a supervisor cannot tell them apart. -/
theorem config_change_exit_code_collides :
    (run_periodically_step 100 50 ⟨some 30, none⟩ ⟨0, 11, 12, 13, 14, true⟩).1 =
      SchedAction.exitConfigChanged 1 ∧
    mqtt_publish PublishOutcome.exception = Except.error 1 := ⟨rfl, rfl⟩

/-- C8 amended: a detected configuration change terminates the loop with exit
code 1; this coincides with the exit code of a failed publish and is distinct
only from the reboot escalation code 2 used on reconnect exhaustion. -/
theorem config_change_exits_with_code_one (th p b : ℤ) (inp : CycleInput)
    (h1 : ¬ th < run_with_time_measure p inp.elapsed)
    (h2 : 0 < run_with_time_measure p inp.elapsed)
    (h3 : inp.config_changed = true) :
    (run_periodically_step th p ⟨some b, none⟩ inp).1 =
      SchedAction.exitConfigChanged 1 ∧
    mqtt_publish PublishOutcome.exception = Except.error 1 ∧
    on_disconnect 5 7 = (MqttAction.reboot 2, 5) ∧ (1 : ℕ) ≠ 2 := by
  refine ⟨?_, rfl, rfl, by decide⟩
  rw [run_periodically_step_calibrated, if_neg h1, if_pos h2]
  simp [h3]

/-- C8 amended witness at a concrete state and input. -/
theorem config_change_exits_with_code_one_witness :
    (run_periodically_step 100 50 ⟨some 30, none⟩ ⟨0, 11, 12, 13, 14, true⟩).1 =
      SchedAction.exitConfigChanged 1 ∧
    mqtt_publish PublishOutcome.exception = Except.error 1 ∧
    on_disconnect 5 7 = (MqttAction.reboot 2, 5) ∧ (1 : ℕ) ≠ 2 :=
  config_change_exits_with_code_one 100 50 30 ⟨0, 11, 12, 13, 14, true⟩
    (by decide) (by decide) rfl

/-- C9: `run_with_time_measure` returns `max (period - elapsed) 0`, hence a
value that is never negative; and a zero `waiting_time` makes the scheduler
(from a calibrated state, with the nonnegative `SHUTDOWN_THRESHOLD`) emit the
too-short-period warning rather than an error. -/
theorem waiting_time_nonneg_and_zero_warns (p e th b : ℤ) (inp : CycleInput)
    (hth : 0 ≤ th) :
    0 ≤ run_with_time_measure p e ∧
    run_with_time_measure p e = max (p - e) 0 ∧
    (run_with_time_measure p inp.elapsed = 0 →
      (run_periodically_step th p ⟨some b, none⟩ inp).1 =
        SchedAction.warnPeriodTooShort) := by
  refine ⟨le_max_right _ _, rfl, fun h0 => ?_⟩
  rw [run_periodically_step_calibrated, h0]
  rw [if_neg (by omega), if_neg (by omega)]

/-- C9 witness: `period = 5`, a cycle of 10 s gives `waiting_time = 0`
(clamped, not negative), and the scheduler warns. -/
theorem waiting_time_nonneg_and_zero_warns_witness :
    (0 : ℤ) ≤ run_with_time_measure 5 10 ∧
    run_with_time_measure 5 10 = max ((5 : ℤ) - 10) 0 ∧
    (run_periodically_step 0 5 ⟨some 50, none⟩ ⟨10, 11, 12, 13, 14, false⟩).1 =
      SchedAction.warnPeriodTooShort :=
  ⟨(waiting_time_nonneg_and_zero_warns 5 10 0 50 ⟨10, 11, 12, 13, 14, false⟩ (by decide)).1,
   (waiting_time_nonneg_and_zero_warns 5 10 0 50 ⟨10, 11, 12, 13, 14, false⟩ (by decide)).2.1,
   (waiting_time_nonneg_and_zero_warns 5 10 0 50 ⟨10, 11, 12, 13, 14, false⟩ (by decide)).2.2
     (by decide)⟩

/-- C10 counterexample: the default dict binds `"a"` to the scalar 1, yet
merging with an update that binds `"a"` to a dict replaces the value
wholesale — the result holds the key `"evil"` at a nested level although no
level of the default contains it, so an external configuration can introduce
keys absent from the default. -/
theorem deep_merge_inserts_nested_update_keys :
    jlookup "a" (deep_merge (jfields [("a", JValue.num 1)])
        (jfields [("a", JValue.obj (jfields [("evil", JValue.num 2)]))])) =
      some (JValue.obj (jfields [("evil", JValue.num 2)])) ∧
    jlookup "a" (jfields [("a", JValue.num 1)]) = some (JValue.num 1) :=
  ⟨rfl, rfl⟩

/-- C10 amended: `deep_merge` preserves the default dict's top-level key list
at every level where the merge recurses (and the statement holds for all
dicts, hence at each nested level on which `deep_merge` is invoked), and
merging with an empty update returns the default unchanged; but when exactly
one of the two values at a common key is a dict, the update value is taken
wholesale and may introduce nested keys absent from the default. -/
theorem deep_merge_preserves_toplevel_keys (d u : JFields) :
    (deep_merge d u).keys = d.keys ∧ deep_merge d JFields.nil = d :=
  ⟨deep_merge_keys d u, deep_merge_nil d⟩

end AitiA
